import Mathlib

/-!
# Verification of `src/utils/call_llm.py`

A shallow embedding of the single source file `src/utils/call_llm.py`
(an adapter around a hosted LLM API: prompt cache, token-cost estimator,
session cost accumulator, and the `call_llm` entry point), together with
theorems settling the specification claims.

Modelling conventions:
* Python `dict`s are association lists (`List (String × α)`); `d.get(k)`
  is `dictGet`, `d.get(k, v)` is `dictGetD`, `d[k] = v` is `dictInsert`,
  and a failing subscript `d[k]` (KeyError) is `dictGet` returning `none`.
* Monetary amounts are exact rationals (`ℚ`); token counts are `ℕ`
  (coerced into `ℚ` where the Python code stores them in the same dict
  as the float costs).
* The environment (`os.getenv` / `os.environ.get`) is passed in as an
  explicit `Env` record; the outcome of `json.loads` on the pricing
  override is an oracle (`EnvPricing`), since JSON parsing itself is
  outside the modelled code.
* File-system and network effects are explicit: the cache file is a
  component of `LLMState`, the remote API outcome (`RemoteOutcome`) and
  the success of the cache-file write (`cacheWriteOk`) are oracles, and
  each executed `client.messages.create` increments a counter
  `remoteCalls` so that "no new network invocation" is expressible.
* Log output is a list of `LogEvent`s; the exact f-string formatting of
  a line is abstracted into a constructor carrying the data the line is
  built from.
-/

set_option autoImplicit false

namespace CallLLM

/-- Python `d.get(k)` on a dict modelled as an association list:
the value at the first matching key, if any. -/
def dictGet {α : Type} (d : List (String × α)) (k : String) : Option α :=
  (d.find? (fun p => p.1 == k)).map Prod.snd

/-- Python `d.get(k, v)`: lookup with a default. -/
def dictGetD {α : Type} (d : List (String × α)) (k : String) (v : α) : α :=
  (dictGet d k).getD v

/-- Python `d[k] = v`: overwrite the entry when the key is present,
otherwise append it (insertion order preserved, as in a Python dict). -/
def dictInsert {α : Type} (d : List (String × α)) (k : String) (v : α) :
    List (String × α) :=
  if (dictGet d k).isSome then
    d.map (fun p => if p.1 == k then (k, v) else p)
  else
    d ++ [(k, v)]

/-- A per-model pricing record, e.g. `{"input": 0.80, "output": 4.00,
"thinking": 0.30}` (USD per 1M tokens). -/
abbrev PricingRecord := List (String × ℚ)

/-- The pricing table: model name ↦ pricing record. -/
abbrev PricingTable := List (String × PricingRecord)

/-- The compiled-in `TOKEN_PRICING` table (call_llm.py lines 60-76). -/
def TOKEN_PRICING : PricingTable :=
  [("claude-haiku-4-5-20251001",
     [("input", 0.80), ("output", 4.00), ("thinking", 0.30)]),
   ("claude-3-5-sonnet-20241022",
     [("input", 3.00), ("output", 15.00), ("thinking", 1.00)]),
   ("claude-3-opus-20250219",
     [("input", 15.00), ("output", 75.00), ("thinking", 5.00)])]

/-- The outcome of reading and JSON-parsing the `ANTHROPIC_TOKEN_PRICING`
environment variable. `absent` covers both an unset and an empty-string
variable (the code treats `""` as falsy); `malformed` is a set, non-empty
value on which `json.loads` raises `JSONDecodeError`; `wellFormed t` is a
set value parsing to the mapping `t`. -/
inductive EnvPricing where
  | absent
  | malformed
  | wellFormed (t : PricingTable)
  deriving DecidableEq, Repr

/-- `_load_token_pricing` (lines 81-90): the effective pricing table
paired with whether the malformed-override warning was logged. -/
def loadTokenPricing : EnvPricing → PricingTable × Bool
  | .absent => (TOKEN_PRICING, false)
  | .malformed => (TOKEN_PRICING, true)
  | .wellFormed t => (t, false)

/-- Line 118: `pricing.get(model, pricing.get("claude-haiku-4-5-20251001", {}))`. -/
def resolveModelPricing (pricing : PricingTable) (model : String) : PricingRecord :=
  dictGetD pricing model (dictGetD pricing "claude-haiku-4-5-20251001" [])

/-- The cost-breakdown dict returned by `_calculate_token_cost`
(lines 115-137), computed from an already-resolved pricing table.
The source function obtains the table by calling `_load_token_pricing()`
itself; `calculateTokenCost` below composes the two. -/
def calcCore (pricing : PricingTable) (model : String)
    (inputTokens outputTokens thinkingTokens : ℕ) : List (String × ℚ) :=
  let modelPricing := resolveModelPricing pricing model
  let inputPrice := dictGetD modelPricing "input" 0.80 / 1000000
  let outputPrice := dictGetD modelPricing "output" 4.00 / 1000000
  let thinkingPrice := dictGetD modelPricing "thinking" 0.30 / 1000000
  let inputCost := (inputTokens : ℚ) * inputPrice
  let outputCost := (outputTokens : ℚ) * outputPrice
  let thinkingCost := (thinkingTokens : ℚ) * thinkingPrice
  [("input_tokens", (inputTokens : ℚ)),
   ("input_cost", inputCost),
   ("output_tokens", (outputTokens : ℚ)),
   ("output_cost", outputCost),
   ("thinking_tokens", (thinkingTokens : ℚ)),
   ("thinking_cost", thinkingCost),
   ("total_tokens", ((inputTokens : ℚ) + outputTokens + thinkingTokens)),
   ("total_cost", inputCost + outputCost + thinkingCost)]

/-- `_calculate_token_cost(model, input, output, thinking)` (lines 92-137):
loads the effective pricing table from the environment, then computes the
cost breakdown. -/
def calculateTokenCost (envPricing : EnvPricing) (model : String)
    (inputTokens outputTokens thinkingTokens : ℕ) : List (String × ℚ) :=
  calcCore (loadTokenPricing envPricing).1 model inputTokens outputTokens thinkingTokens

/-- Python's `str.lower()`, restricted to basic-latin letters (the strings
the code compares are ASCII). -/
def pyLower (s : String) : String :=
  String.mk (s.data.map Char.toLower)

/-- Line 150: `os.getenv("LOG_TOKEN_COSTS", "True").lower() in ("true", "1", "yes")`.
The argument is the raw environment variable (`none` when unset). -/
def shouldLogOf (v : Option String) : Bool :=
  ["true", "1", "yes"].contains (pyLower (v.getD "True"))

/-- One line of the activity log. Formatting of the actual text is
abstracted into a constructor carrying the data the line is built from. -/
inductive LogEvent where
  /-- Line 356: `PROMPT: ...` (truncated). -/
  | promptLog (s : String)
  /-- Line 366: `RESPONSE: (from cache)`. -/
  | responseFromCache
  /-- Line 157: `CACHE HIT - No tokens used`. -/
  | cacheHitCost
  /-- Line 175: the `TOKEN COST:` report (model, breakdown, session total). -/
  | tokenCostReport (model : String) (costInfo : List (String × ℚ)) (sessionTotal : ℚ)
  /-- Line 370: warning `Failed to load cache: ...`. -/
  | warnCacheLoad
  /-- Line 376: error `ANTHROPIC_API_KEY not set`. -/
  | errorApiKeyNotSet
  /-- Line 412: `RESPONSE: ...` (truncated). -/
  | responseLog (s : String)
  /-- Line 441: warning `Failed to save cache: ...`. -/
  | warnCacheSave
  /-- Line 408: error `No text content in response. Content types: ...`. -/
  | errorNoTextContent (types : List String)
  /-- Line 447: error `LLM API call failed: ...` (outer handler). -/
  | errorApiCallFailed
  deriving DecidableEq, Repr

/-- `_log_token_cost(cost_info, model, from_cache)` (lines 139-175).
Takes the resolved `should_log` flag, the current `_session_total_cost`,
and the cost dict; returns the new session total and emitted log events,
or `.error ()` for the `KeyError` raised by `cost_info["total_cost"]`
(line 154) when the key is absent — as happens for the empty dict `{}`
passed on the cache-hit path. (The message-building subscripts on
lines 163-171 are reached only with the complete dict produced by
`_calculate_token_cost`, so only the line-154 subscript is modelled as
fallible.) -/
def logTokenCost (shouldLog : Bool) (sessionTotal : ℚ)
    (costInfo : List (String × ℚ)) (model : String) (fromCache : Bool) :
    Except Unit (ℚ × List LogEvent) :=
  if !shouldLog then .ok (sessionTotal, [])
  else
    match dictGet costInfo "total_cost" with
    | none => .error ()
    | some totalCost =>
      let newTotal := sessionTotal + totalCost
      if fromCache then .ok (newTotal, [.cacheHitCost])
      else .ok (newTotal, [.tokenCostReport model costInfo newTotal])

/-- The contents of `llm_cache.json` when the file exists: either a file
`json.load` rejects, or a valid prompt→response mapping. -/
inductive CacheContent where
  | malformed
  | valid (entries : List (String × String))
  deriving DecidableEq, Repr

/-- Process state touched by `call_llm`: the cache file
(`none` = file does not exist), the `_session_total_cost` global
(line 79), the number of `client.messages.create` invocations performed
(to express "no new network invocation"), and the activity log. -/
structure LLMState where
  cacheFile : Option CacheContent
  sessionTotalCost : ℚ
  remoteCalls : ℕ
  log : List LogEvent
  deriving DecidableEq, Repr

/-- State at process start: no remote calls yet, `_session_total_cost = 0.0`. -/
def initialState (cacheFile : Option CacheContent) : LLMState :=
  { cacheFile := cacheFile, sessionTotalCost := 0, remoteCalls := 0, log := [] }

/-- Append one line to the activity log (`logger.info` / `.warning` / `.error`). -/
def logI (st : LLMState) (e : LogEvent) : LLMState :=
  { st with log := st.log ++ [e] }

/-- The environment variables `call_llm` reads. `anthropicApiKey` is
`os.environ.get("ANTHROPIC_API_KEY", "")` (so `""` covers both unset and
empty); `logTokenCostsVar` is the raw `LOG_TOKEN_COSTS` value;
`tokenPricingVar` is the parse outcome of `ANTHROPIC_TOKEN_PRICING`;
`model` is the resolved `ANTHROPIC_MODEL` with its default applied.
(`ANTHROPIC_MAX_TOKENS` / `ANTHROPIC_THINKING_BUDGET` only shape the
request payload, which the remote oracle abstracts, so they are omitted.) -/
structure Env where
  anthropicApiKey : String
  logTokenCostsVar : Option String
  tokenPricingVar : EnvPricing
  model : String
  deriving DecidableEq, Repr

/-- The resolved `should_log` flag for this environment. -/
def Env.shouldLog (env : Env) : Bool :=
  shouldLogOf env.logTokenCostsVar

/-- One typed content segment of the remote response. The code reads
`content_block.type`, and `content_block.text` only when the type is
`"text"`; for other types `text` is irrelevant. -/
structure ContentBlock where
  type : String
  text : String
  deriving DecidableEq, Repr

/-- `response.usage`: `cache_creation_input_tokens` is read via
`getattr(..., 0) or 0`, i.e. a missing or `None` field counts as 0. -/
structure Usage where
  input_tokens : ℕ
  output_tokens : ℕ
  cache_creation_input_tokens : Option ℕ
  deriving DecidableEq, Repr

/-- Oracle for the outcome of `client.messages.create`: either the call
raises (network/API failure) or returns content segments with usage. -/
inductive RemoteOutcome where
  | netError
  | success (content : List ContentBlock) (usage : Usage)
  deriving DecidableEq, Repr

/-- The failure `call_llm` surfaces, distinguished here by constructor;
in Python all three are exceptions told apart only by message. -/
inductive CallError where
  /-- `ValueError("ANTHROPIC_API_KEY environment variable not set")` (line 377). -/
  | configError
  /-- A network/API exception propagating out of `client.messages.create`. -/
  | apiError
  /-- `ValueError("No text content in response. Content types: ...")` (line 409). -/
  | noTextContent (types : List String)
  deriving DecidableEq, Repr

/-- Line 356 / 412: truncate to 200 characters plus `"..."`. -/
def truncateForLog (s : String) : String :=
  if s.length > 200 then s.take 200 ++ "..." else s

/-- The body of the `try:` block of `call_llm` (lines 372-448), entered
after the cache check: credential check, remote invocation, response
parsing, cost computation and logging, cache write-back. The outer
`except Exception` handler (lines 445-448) logs `LLM API call failed`
and re-raises, so every error path appends `errorApiCallFailed` before
propagating. `cacheWriteOk` is the oracle for whether the cache-file
write (lines 438-439) succeeds. -/
def callLLMRemotePhase (env : Env) (remote : RemoteOutcome) (cacheWriteOk : Bool)
    (prompt : String) (use_cache : Bool) (st : LLMState) :
    Except CallError String × LLMState :=
  if env.anthropicApiKey == "" then
    let st := logI st .errorApiKeyNotSet
    (.error .configError, logI st .errorApiCallFailed)
  else
    match remote with
    | .netError =>
      let st := { st with remoteCalls := st.remoteCalls + 1 }
      (.error .apiError, logI st .errorApiCallFailed)
    | .success content usage =>
      let st := { st with remoteCalls := st.remoteCalls + 1 }
      match content.find? (fun b => b.type == "text") with
      | none =>
        let types := content.map (·.type)
        let st := logI st (.errorNoTextContent types)
        (.error (.noTextContent types), logI st .errorApiCallFailed)
      | some block =>
        let responseText := block.text
        let st := logI st (.responseLog (truncateForLog responseText))
        let thinkingTokens := usage.cache_creation_input_tokens.getD 0
        let costInfo := calculateTokenCost env.tokenPricingVar env.model
          usage.input_tokens usage.output_tokens thinkingTokens
        match logTokenCost env.shouldLog st.sessionTotalCost costInfo env.model false with
        | .error _ =>
          -- a KeyError here would reach the outer handler; with the
          -- complete dict from `_calculate_token_cost` it cannot occur
          (.error .apiError, logI st .errorApiCallFailed)
        | .ok (newTotal, evs) =>
          let st := { st with sessionTotalCost := newTotal, log := st.log ++ evs }
          if use_cache then
            -- lines 427-441: re-read the file (bare `except: pass` on a
            -- malformed or missing file leaves `cache = {}`), insert,
            -- rewrite the whole file; a write failure is caught and
            -- logged as a warning, and the fresh response is returned
            let cache := match st.cacheFile with
              | some (.valid c) => c
              | _ => []
            let cache := dictInsert cache prompt responseText
            if cacheWriteOk then
              (.ok responseText, { st with cacheFile := some (.valid cache) })
            else
              (.ok responseText, logI st .warnCacheSave)
          else
            (.ok responseText, st)

/-- `call_llm(prompt, use_cache)` (lines 334-448). The cache-check block
(lines 358-370) runs first: when `use_cache` holds and the file exists
and parses and contains the prompt, the code logs `RESPONSE: (from cache)`
and calls `_log_token_cost({}, "", from_cache=True)`. When that call
raises (the `KeyError` on `{}["total_cost"]`), the exception is caught by
the `except` of the cache-*load* block (line 369), logged as
`Failed to load cache`, and control falls through to the remote phase. -/
def call_llm (env : Env) (remote : RemoteOutcome) (cacheWriteOk : Bool)
    (prompt : String) (use_cache : Bool) (st : LLMState) :
    Except CallError String × LLMState :=
  let st := logI st (.promptLog (truncateForLog prompt))
  if use_cache then
    match st.cacheFile with
    | none =>
      callLLMRemotePhase env remote cacheWriteOk prompt use_cache st
    | some .malformed =>
      -- `json.load` raises; the handler logs the warning and falls through
      callLLMRemotePhase env remote cacheWriteOk prompt use_cache (logI st .warnCacheLoad)
    | some (.valid cache) =>
      match dictGet cache prompt with
      | none =>
        callLLMRemotePhase env remote cacheWriteOk prompt use_cache st
      | some cached =>
        let st := logI st .responseFromCache
        match logTokenCost env.shouldLog st.sessionTotalCost [] "" true with
        | .ok (newTotal, evs) =>
          (.ok cached, { st with sessionTotalCost := newTotal, log := st.log ++ evs })
        | .error _ =>
          callLLMRemotePhase env remote cacheWriteOk prompt use_cache
            (logI st .warnCacheLoad)
  else
    callLLMRemotePhase env remote cacheWriteOk prompt use_cache st

/-- The prompt→response mapping the cache-check block sees: `none` when
the file is missing, malformed, or lacks the prompt. -/
def cacheLookup (st : LLMState) (prompt : String) : Option String :=
  match st.cacheFile with
  | some (.valid c) => dictGet c prompt
  | _ => none

/-- The amount the session accumulator grows by on one call when cost
logging is enabled: the `total_cost` of the breakdown computed for the
remote response, or 0 when the call fails before computing one. -/
def callCostDelta (env : Env) (remote : RemoteOutcome) : ℚ :=
  if env.anthropicApiKey == "" then 0
  else
    match remote with
    | .netError => 0
    | .success content usage =>
      match content.find? (fun b => b.type == "text") with
      | none => 0
      | some _ =>
        dictGetD (calculateTokenCost env.tokenPricingVar env.model
          usage.input_tokens usage.output_tokens
          (usage.cache_creation_input_tokens.getD 0)) "total_cost" 0

section Lemmas

theorem dictGet_calcCore_total_cost (pricing : PricingTable) (m : String)
    (a b c : ℕ) :
    dictGet (calcCore pricing m a b c) "total_cost" =
      some ((a : ℚ) * (dictGetD (resolveModelPricing pricing m) "input" 0.80 / 1000000)
        + (b : ℚ) * (dictGetD (resolveModelPricing pricing m) "output" 4.00 / 1000000)
        + (c : ℚ) * (dictGetD (resolveModelPricing pricing m) "thinking" 0.30 / 1000000)) :=
  rfl

theorem dictGet_calcCore_total_tokens (pricing : PricingTable) (m : String)
    (a b c : ℕ) :
    dictGet (calcCore pricing m a b c) "total_tokens" =
      some ((a : ℚ) + b + c) :=
  rfl

theorem dictGet_nil {α : Type} (k : String) :
    dictGet ([] : List (String × α)) k = none :=
  rfl

theorem resolveModelPricing_of_absent (pricing : PricingTable) (m : String)
    (h : dictGet pricing m = none) :
    resolveModelPricing pricing m =
      resolveModelPricing pricing "claude-haiku-4-5-20251001" := by
  unfold resolveModelPricing dictGetD
  rw [h]
  cases hd : dictGet pricing "claude-haiku-4-5-20251001" <;> simp [hd]

theorem remotePhase_sessionTotal (env : Env) (remote : RemoteOutcome)
    (cacheWriteOk : Bool) (prompt : String) (use_cache : Bool)
    (st : LLMState) :
    (callLLMRemotePhase env remote cacheWriteOk prompt use_cache st).2.sessionTotalCost =
      st.sessionTotalCost +
        (if env.shouldLog then callCostDelta env remote else 0) := by
  unfold callLLMRemotePhase callCostDelta
  cases hkey : env.anthropicApiKey == ""
  · cases remote with
    | netError => cases env.shouldLog <;> simp [logI]
    | success content usage =>
      cases hf : content.find? (fun b => b.type == "text") with
      | none => cases env.shouldLog <;> simp [logI, hf]
      | some blk =>
        cases hsl : env.shouldLog with
        | false =>
          cases use_cache <;> cases cacheWriteOk <;>
            simp [logI, hf, hsl, logTokenCost]
        | true =>
          cases use_cache <;> cases cacheWriteOk <;>
            simp [logI, hf, hsl, logTokenCost, calculateTokenCost,
              dictGet_calcCore_total_cost, dictGetD]
  · cases env.shouldLog <;> simp [logI]

theorem call_llm_sessionTotal (env : Env) (remote : RemoteOutcome)
    (cacheWriteOk : Bool) (prompt : String) (use_cache : Bool)
    (st : LLMState) :
    (call_llm env remote cacheWriteOk prompt use_cache st).2.sessionTotalCost =
      st.sessionTotalCost +
        (if env.shouldLog then callCostDelta env remote else 0) := by
  obtain ⟨cf0, tot, rc, lg⟩ := st
  cases use_cache with
  | false =>
    exact remotePhase_sessionTotal env remote cacheWriteOk prompt false
      (logI ⟨cf0, tot, rc, lg⟩ (.promptLog (truncateForLog prompt)))
  | true =>
    cases cf0 with
    | none =>
      exact remotePhase_sessionTotal env remote cacheWriteOk prompt true
        (logI ⟨none, tot, rc, lg⟩ (.promptLog (truncateForLog prompt)))
    | some cc =>
      cases cc with
      | malformed =>
        exact remotePhase_sessionTotal env remote cacheWriteOk prompt true
          (logI (logI ⟨some .malformed, tot, rc, lg⟩
            (.promptLog (truncateForLog prompt))) .warnCacheLoad)
      | valid c =>
        cases hg : dictGet c prompt with
        | none =>
          have e : call_llm env remote cacheWriteOk prompt true
              ⟨some (.valid c), tot, rc, lg⟩ =
              callLLMRemotePhase env remote cacheWriteOk prompt true
                (logI ⟨some (.valid c), tot, rc, lg⟩
                  (.promptLog (truncateForLog prompt))) := by
            unfold call_llm
            simp [logI, hg]
          rw [e, remotePhase_sessionTotal]
          rfl
        | some cached =>
          cases hsl : env.shouldLog with
          | false =>
            simp [call_llm, logI, hg, hsl, logTokenCost]
          | true =>
            have e : call_llm env remote cacheWriteOk prompt true
                ⟨some (.valid c), tot, rc, lg⟩ =
                callLLMRemotePhase env remote cacheWriteOk prompt true
                  (logI (logI (logI ⟨some (.valid c), tot, rc, lg⟩
                      (.promptLog (truncateForLog prompt)))
                    .responseFromCache) .warnCacheLoad) := by
              unfold call_llm
              simp [logI, hg, logTokenCost, hsl, dictGet_nil]
            rw [e, remotePhase_sessionTotal, hsl]
            rfl

end Lemmas

section ClaimC2

/-- C2: for every pricing environment, model string and token counts
`a, b, c`, the `total_cost` of `_calculate_token_cost` equals
`a*input_rate/1e6 + b*output_rate/1e6 + c*thinking_rate/1e6` for the
rates resolved for the model (default-model record when absent, per-key
fallbacks when a key is missing), and `total_tokens` equals `a + b + c`. -/
theorem calculateTokenCost_linear (envPricing : EnvPricing) (m : String)
    (a b c : ℕ) :
    dictGet (calculateTokenCost envPricing m a b c) "total_cost" =
      some ((a : ℚ) * dictGetD (resolveModelPricing (loadTokenPricing envPricing).1 m) "input" 0.80 / 1000000
        + (b : ℚ) * dictGetD (resolveModelPricing (loadTokenPricing envPricing).1 m) "output" 4.00 / 1000000
        + (c : ℚ) * dictGetD (resolveModelPricing (loadTokenPricing envPricing).1 m) "thinking" 0.30 / 1000000)
    ∧ dictGet (calculateTokenCost envPricing m a b c) "total_tokens" =
      some ((a : ℚ) + b + c) := by
  refine ⟨?_, dictGet_calcCore_total_tokens _ _ _ _ _⟩
  rw [calculateTokenCost, dictGet_calcCore_total_cost]
  congr 1
  ring

end ClaimC2

section ClaimC3

/-- C3: a model absent from the effective pricing table resolves to the
designated default model's rates: the cost breakdown is the one the
default model `"claude-haiku-4-5-20251001"` would get, and under the
compiled-in table an unknown model's record is the haiku record, whose
three rates are strictly positive (never zero, and the computation is
total, never an error). -/
theorem unknown_model_uses_default_pricing (pricing : PricingTable)
    (m : String) (a b c : ℕ) (h : dictGet pricing m = none) :
    calcCore pricing m a b c =
      calcCore pricing "claude-haiku-4-5-20251001" a b c
    ∧ (dictGet TOKEN_PRICING m = none →
        resolveModelPricing TOKEN_PRICING m =
          [("input", 0.80), ("output", 4.00), ("thinking", 0.30)]
        ∧ (0 : ℚ) < 0.80 ∧ (0 : ℚ) < 4.00 ∧ (0 : ℚ) < 0.30) := by
  constructor
  · unfold calcCore
    rw [resolveModelPricing_of_absent pricing m h]
  · intro h2
    refine ⟨?_, by norm_num, by norm_num, by norm_num⟩
    unfold resolveModelPricing dictGetD
    rw [h2]
    rfl

/-- Witness for C3 at the concrete unknown model `"gpt-9"` over the
empty override table. -/
theorem unknown_model_uses_default_pricing_witness :
    calcCore [] "gpt-9" 1 2 3 =
      calcCore [] "claude-haiku-4-5-20251001" 1 2 3
    ∧ (dictGet TOKEN_PRICING "gpt-9" = none →
        resolveModelPricing TOKEN_PRICING "gpt-9" =
          [("input", 0.80), ("output", 4.00), ("thinking", 0.30)]
        ∧ (0 : ℚ) < 0.80 ∧ (0 : ℚ) < 4.00 ∧ (0 : ℚ) < 0.30) :=
  unknown_model_uses_default_pricing [] "gpt-9" 1 2 3 rfl

end ClaimC3

section ClaimC5

/-- C5: a well-formed pricing override is returned exactly as parsed
(wholesale replacement, no merging with the compiled-in table, no
warning), and a malformed override yields the compiled-in `TOKEN_PRICING`
unchanged together with the warning. -/
theorem loadTokenPricing_override (t : PricingTable) :
    loadTokenPricing (.wellFormed t) = (t, false)
    ∧ loadTokenPricing .malformed = (TOKEN_PRICING, true)
    ∧ loadTokenPricing .absent = (TOKEN_PRICING, false) :=
  ⟨rfl, rfl, rfl⟩

end ClaimC5

section ClaimC10

/-- C10: cost estimation is total over arbitrarily shaped pricing data.
Whenever the resolved record misses `"input"`, `"output"` or
`"thinking"`, the per-category rate falls back to 0.80, 4.00 and 0.30
per million tokens respectively, and the breakdown always carries the
complete set of eight keys (no exception is raised). -/
theorem calcCore_total_with_fallbacks (pricing : PricingTable) (m : String)
    (a b c : ℕ) :
    (dictGet (resolveModelPricing pricing m) "input" = none →
      dictGet (calcCore pricing m a b c) "input_cost" =
        some ((a : ℚ) * 0.80 / 1000000))
    ∧ (dictGet (resolveModelPricing pricing m) "output" = none →
      dictGet (calcCore pricing m a b c) "output_cost" =
        some ((b : ℚ) * 4.00 / 1000000))
    ∧ (dictGet (resolveModelPricing pricing m) "thinking" = none →
      dictGet (calcCore pricing m a b c) "thinking_cost" =
        some ((c : ℚ) * 0.30 / 1000000))
    ∧ (calcCore pricing m a b c).map Prod.fst =
      ["input_tokens", "input_cost", "output_tokens", "output_cost",
       "thinking_tokens", "thinking_cost", "total_tokens", "total_cost"] := by
  refine ⟨?_, ?_, ?_, rfl⟩ <;> intro h <;>
    · show some _ = some _
      rw [dictGetD, h]
      congr 1
      simp only [Option.getD_none]
      ring

/-- Witness for C10 at the empty table, where both the requested and the
default model are absent and the resolved record is the empty dict. -/
theorem calcCore_total_with_fallbacks_witness :
    dictGet (calcCore [] "gpt-9" 2 3 4) "input_cost" =
      some ((2 : ℚ) * 0.80 / 1000000)
    ∧ dictGet (calcCore [] "gpt-9" 2 3 4) "output_cost" =
      some ((3 : ℚ) * 4.00 / 1000000)
    ∧ dictGet (calcCore [] "gpt-9" 2 3 4) "thinking_cost" =
      some ((4 : ℚ) * 0.30 / 1000000) :=
  ⟨(calcCore_total_with_fallbacks [] "gpt-9" 2 3 4).1 rfl,
   (calcCore_total_with_fallbacks [] "gpt-9" 2 3 4).2.1 rfl,
   (calcCore_total_with_fallbacks [] "gpt-9" 2 3 4).2.2.1 rfl⟩

end ClaimC10

section ClaimC6

/-- C6: a remote response with no `"text"`-typed content segment makes the
call fail with the response-shape error listing exactly the segment types
present (a constructor distinct from the network-error one); a response
with at least one text segment yields the text of the first such segment.
(`use_cache := false` so the call is a pure remote round trip.) -/
theorem response_parse_first_text (env : Env) (cacheWriteOk : Bool)
    (prompt : String) (content : List ContentBlock) (usage : Usage)
    (st : LLMState) (hkey : env.anthropicApiKey ≠ "") :
    ((∀ blk ∈ content, blk.type ≠ "text") →
      (call_llm env (.success content usage) cacheWriteOk prompt false st).1 =
        .error (.noTextContent (content.map (fun b => b.type))))
    ∧ (∀ pre blk post, content = pre ++ blk :: post → blk.type = "text" →
        (∀ x ∈ pre, x.type ≠ "text") →
        (call_llm env (.success content usage) cacheWriteOk prompt false st).1 =
          .ok blk.text)
    ∧ (∀ ts, CallError.noTextContent ts ≠ CallError.apiError) := by
  have hkey' : (env.anthropicApiKey == "") = false :=
    beq_eq_false_iff_ne.mpr hkey
  refine ⟨?_, ?_, fun ts => by simp⟩
  · intro hall
    have hfind : content.find? (fun b => b.type == "text") = none := by
      rw [List.find?_eq_none]
      intro x hx
      simpa using hall x hx
    simp [call_llm, callLLMRemotePhase, hkey', hfind, logI]
  · intro pre blk post hc htype hpre
    have hprenone : pre.find? (fun b => b.type == "text") = none := by
      rw [List.find?_eq_none]
      intro x hx
      simpa using hpre x hx
    have hfind : content.find? (fun b => b.type == "text") = some blk := by
      rw [hc, List.find?_append, hprenone, Option.none_or,
        List.find?_cons_of_pos _ (by simpa using htype)]
    cases hsl : env.shouldLog <;>
      simp [call_llm, callLLMRemotePhase, hkey', hfind, logI, logTokenCost,
        hsl, calculateTokenCost, dictGet_calcCore_total_cost]

/-- Witness for C6: segment types `["thinking", "tool_use"]` produce the
response-shape error naming both. -/
theorem response_parse_first_text_witness :
    (call_llm ⟨"api-key", none, .absent, "claude-haiku-4-5-20251001"⟩
        (.success [⟨"thinking", ""⟩, ⟨"tool_use", ""⟩] ⟨1, 1, none⟩) true
        "p" false (initialState none)).1 =
      .error (.noTextContent ["thinking", "tool_use"]) :=
  (response_parse_first_text _ true "p" _ _ _ (by decide)).1 (by decide)

end ClaimC6

section ClaimC7

/-- C7: an absent or empty `ANTHROPIC_API_KEY` (with no cache hit) makes
the call fail with the configuration error, with no remote invocation
performed and the cache file untouched. -/
theorem missing_credential_fails_fast (env : Env) (remote : RemoteOutcome)
    (cacheWriteOk : Bool) (prompt : String) (use_cache : Bool)
    (st : LLMState) (hkey : env.anthropicApiKey = "")
    (hnohit : use_cache = true →
      cacheLookup st prompt = none ∨ env.shouldLog = true) :
    (call_llm env remote cacheWriteOk prompt use_cache st).1 = .error .configError
    ∧ (call_llm env remote cacheWriteOk prompt use_cache st).2.remoteCalls =
        st.remoteCalls
    ∧ (call_llm env remote cacheWriteOk prompt use_cache st).2.cacheFile =
        st.cacheFile := by
  cases use_cache with
  | false => simp [call_llm, callLLMRemotePhase, hkey, logI]
  | true =>
    have h := hnohit rfl
    cases hcf : st.cacheFile with
    | none => simp [call_llm, callLLMRemotePhase, hkey, hcf, logI]
    | some cc =>
      cases cc with
      | malformed => simp [call_llm, callLLMRemotePhase, hkey, hcf, logI]
      | valid c =>
        cases hg : dictGet c prompt with
        | none => simp [call_llm, callLLMRemotePhase, hkey, hcf, hg, logI]
        | some cached =>
          have hsl : env.shouldLog = true := by
            rcases h with h | h
            · exfalso
              unfold cacheLookup at h
              rw [hcf] at h
              have h' : dictGet c prompt = none := h
              rw [hg] at h'
              cases h'
            · exact h
          simp [call_llm, callLLMRemotePhase, hkey, hcf, hg, hsl, logI,
            logTokenCost, dictGet_nil]

/-- Witness for C7 with an empty credential and an empty cache. -/
theorem missing_credential_fails_fast_witness :
    (call_llm ⟨"", none, .absent, "m"⟩ (.success [⟨"text", "t"⟩] ⟨1, 1, none⟩)
        true "p" true (initialState none)).1 = .error .configError
    ∧ (call_llm ⟨"", none, .absent, "m"⟩ (.success [⟨"text", "t"⟩] ⟨1, 1, none⟩)
        true "p" true (initialState none)).2.remoteCalls =
        (initialState none).remoteCalls
    ∧ (call_llm ⟨"", none, .absent, "m"⟩ (.success [⟨"text", "t"⟩] ⟨1, 1, none⟩)
        true "p" true (initialState none)).2.cacheFile =
        (initialState none).cacheFile :=
  missing_credential_fails_fast _ _ true "p" true _ rfl (fun _ => Or.inl rfl)

end ClaimC7

section ClaimC8

theorem remotePhase_false_cacheFile (env : Env) (remote : RemoteOutcome)
    (cacheWriteOk : Bool) (prompt : String) (st : LLMState) :
    (callLLMRemotePhase env remote cacheWriteOk prompt false st).2.cacheFile =
      st.cacheFile := by
  unfold callLLMRemotePhase
  cases hkey : env.anthropicApiKey == ""
  · cases remote with
    | netError => simp [logI]
    | success content usage =>
      cases hf : content.find? (fun b => b.type == "text") with
      | none => simp [logI, hf]
      | some blk =>
        cases hlt : logTokenCost env.shouldLog st.sessionTotalCost
            (calculateTokenCost env.tokenPricingVar env.model
              usage.input_tokens usage.output_tokens
              (usage.cache_creation_input_tokens.getD 0)) env.model false with
        | error e => simp [logI, hf, hlt]
        | ok p => simp [logI, hf, hlt]
  · simp [logI]

theorem remotePhase_cacheFile_irrelevant (env : Env) (remote : RemoteOutcome)
    (cacheWriteOk : Bool) (prompt : String) (st : LLMState)
    (cf : Option CacheContent) :
    callLLMRemotePhase env remote cacheWriteOk prompt false
        { st with cacheFile := cf } =
      ((callLLMRemotePhase env remote cacheWriteOk prompt false st).1,
       { (callLLMRemotePhase env remote cacheWriteOk prompt false st).2 with
         cacheFile := cf }) := by
  unfold callLLMRemotePhase
  cases hkey : env.anthropicApiKey == ""
  · cases remote with
    | netError => simp [logI]
    | success content usage =>
      cases hf : content.find? (fun b => b.type == "text") with
      | none => simp [logI, hf]
      | some blk =>
        cases hlt : logTokenCost env.shouldLog st.sessionTotalCost
            (calculateTokenCost env.tokenPricingVar env.model
              usage.input_tokens usage.output_tokens
              (usage.cache_creation_input_tokens.getD 0)) env.model false with
        | error e => simp [logI, hf, hlt]
        | ok p => simp [logI, hf, hlt]
  · simp [logI]

/-- C8: with `use_cache = false` the cache file is neither written (it is
unchanged by the call) nor read (the call's result, cost accumulator,
remote-invocation count and log are the same whatever the cache file
holds). -/
theorem use_cache_false_frame (env : Env) (remote : RemoteOutcome)
    (cacheWriteOk : Bool) (prompt : String) (st : LLMState)
    (cf : Option CacheContent) :
    (call_llm env remote cacheWriteOk prompt false st).2.cacheFile =
      st.cacheFile
    ∧ (call_llm env remote cacheWriteOk prompt false
        { st with cacheFile := cf }).1 =
      (call_llm env remote cacheWriteOk prompt false st).1
    ∧ (call_llm env remote cacheWriteOk prompt false
        { st with cacheFile := cf }).2.sessionTotalCost =
      (call_llm env remote cacheWriteOk prompt false st).2.sessionTotalCost
    ∧ (call_llm env remote cacheWriteOk prompt false
        { st with cacheFile := cf }).2.remoteCalls =
      (call_llm env remote cacheWriteOk prompt false st).2.remoteCalls
    ∧ (call_llm env remote cacheWriteOk prompt false
        { st with cacheFile := cf }).2.log =
      (call_llm env remote cacheWriteOk prompt false st).2.log := by
  have e2 : call_llm env remote cacheWriteOk prompt false
      { st with cacheFile := cf } =
      ((callLLMRemotePhase env remote cacheWriteOk prompt false
          (logI st (.promptLog (truncateForLog prompt)))).1,
       { (callLLMRemotePhase env remote cacheWriteOk prompt false
          (logI st (.promptLog (truncateForLog prompt)))).2 with
         cacheFile := cf }) :=
    remotePhase_cacheFile_irrelevant env remote cacheWriteOk prompt
      (logI st (.promptLog (truncateForLog prompt))) cf
  refine ⟨?_, ?_, ?_, ?_, ?_⟩
  · show (callLLMRemotePhase env remote cacheWriteOk prompt false
        (logI st (.promptLog (truncateForLog prompt)))).2.cacheFile =
      st.cacheFile
    rw [remotePhase_false_cacheFile]
    exact rfl
  · rw [e2]
    exact rfl
  · rw [e2]
    exact rfl
  · rw [e2]
    exact rfl
  · rw [e2]
    exact rfl

end ClaimC8

section ClaimC9

/-- C9: when a fresh response has been obtained (credential present, no
cache-hit return — i.e. the prompt is not cached, or cost logging is
enabled so the hit path falls through — and remote success with a text
segment) and the cache-file write fails (`cacheWriteOk = false`), the
failure is logged as the save warning and swallowed: the call still
returns the fresh response text, and the cache file is left as it was. -/
theorem cache_write_failure_swallowed (env : Env) (content : List ContentBlock)
    (blk : ContentBlock) (usage : Usage) (prompt : String) (st : LLMState)
    (hkey : env.anthropicApiKey ≠ "")
    (hnohit : cacheLookup st prompt = none ∨ env.shouldLog = true)
    (hfind : content.find? (fun b => b.type == "text") = some blk) :
    (call_llm env (.success content usage) false prompt true st).1 = .ok blk.text
    ∧ LogEvent.warnCacheSave ∈
        (call_llm env (.success content usage) false prompt true st).2.log
    ∧ (call_llm env (.success content usage) false prompt true st).2.cacheFile =
        st.cacheFile := by
  have hkey' : (env.anthropicApiKey == "") = false :=
    beq_eq_false_iff_ne.mpr hkey
  cases hcf : st.cacheFile with
  | none =>
    cases hsl : env.shouldLog <;>
      simp [call_llm, callLLMRemotePhase, hkey', hcf, hfind, logI, logTokenCost,
        hsl, calculateTokenCost, dictGet_calcCore_total_cost]
  | some cc =>
    cases cc with
    | malformed =>
      cases hsl : env.shouldLog <;>
        simp [call_llm, callLLMRemotePhase, hkey', hcf, hfind, logI, logTokenCost,
          hsl, calculateTokenCost, dictGet_calcCore_total_cost]
    | valid c =>
      cases hg : dictGet c prompt with
      | none =>
        cases hsl : env.shouldLog <;>
          simp [call_llm, callLLMRemotePhase, hkey', hcf, hg, hfind, logI,
            logTokenCost, hsl, calculateTokenCost, dictGet_calcCore_total_cost]
      | some cached =>
        have hsl : env.shouldLog = true := by
          rcases hnohit with h | h
          · exfalso
            unfold cacheLookup at h
            rw [hcf] at h
            have h' : dictGet c prompt = none := h
            rw [hg] at h'
            cases h'
          · exact h
        simp [call_llm, callLLMRemotePhase, hkey', hcf, hg, hsl, hfind, logI,
          logTokenCost, dictGet_nil, calculateTokenCost,
          dictGet_calcCore_total_cost]

/-- Witness for C9 at a concrete fresh call whose cache write fails. -/
theorem cache_write_failure_swallowed_witness :
    (call_llm ⟨"api-key", none, .absent, "claude-haiku-4-5-20251001"⟩
        (.success [⟨"text", "fresh"⟩] ⟨10, 5, none⟩) false "p" true
        (initialState none)).1 = .ok "fresh"
    ∧ LogEvent.warnCacheSave ∈
        (call_llm ⟨"api-key", none, .absent, "claude-haiku-4-5-20251001"⟩
          (.success [⟨"text", "fresh"⟩] ⟨10, 5, none⟩) false "p" true
          (initialState none)).2.log
    ∧ (call_llm ⟨"api-key", none, .absent, "claude-haiku-4-5-20251001"⟩
        (.success [⟨"text", "fresh"⟩] ⟨10, 5, none⟩) false "p" true
        (initialState none)).2.cacheFile = (initialState none).cacheFile :=
  cache_write_failure_swallowed _ _ ⟨"text", "fresh"⟩ _ "p" _
    (by decide) (Or.inl rfl) rfl

end ClaimC9

section ClaimC1

/-- C1 (code bug): under the default configuration (`LOG_TOKEN_COSTS`
unset, so cost logging is enabled), a second call with a prompt already
in the cache does NOT return the cached text. The cache-hit path calls
`_log_token_cost({}, "", from_cache=True)`, which raises
`KeyError('total_cost')` on `{}["total_cost"]` (line 154); the exception
is swallowed by the cache-load handler (line 369, logging the
`Failed to load cache` warning), and the call falls through to a fresh
remote invocation: here it returns the fresh text, performs one remote
call, and grows the session accumulator by the fresh call's cost
(100 input + 50 output tokens at haiku rates = 7/25000 USD). -/
theorem cache_hit_falls_through_to_remote :
    shouldLogOf none = true
    ∧ (call_llm ⟨"api-key", none, .absent, "claude-haiku-4-5-20251001"⟩
        (.success [⟨"text", "fresh-answer"⟩] ⟨100, 50, none⟩) true
        "Hello, how are you?" true
        (initialState
          (some (.valid [("Hello, how are you?", "cached-answer")])))).1 =
      .ok "fresh-answer"
    ∧ (call_llm ⟨"api-key", none, .absent, "claude-haiku-4-5-20251001"⟩
        (.success [⟨"text", "fresh-answer"⟩] ⟨100, 50, none⟩) true
        "Hello, how are you?" true
        (initialState
          (some (.valid [("Hello, how are you?", "cached-answer")])))).2.remoteCalls
      = 1
    ∧ (call_llm ⟨"api-key", none, .absent, "claude-haiku-4-5-20251001"⟩
        (.success [⟨"text", "fresh-answer"⟩] ⟨100, 50, none⟩) true
        "Hello, how are you?" true
        (initialState
          (some (.valid [("Hello, how are you?", "cached-answer")])))).2.sessionTotalCost
      = 7 / 25000
    ∧ LogEvent.warnCacheLoad ∈
        (call_llm ⟨"api-key", none, .absent, "claude-haiku-4-5-20251001"⟩
          (.success [⟨"text", "fresh-answer"⟩] ⟨100, 50, none⟩) true
          "Hello, how are you?" true
          (initialState
            (some (.valid [("Hello, how are you?", "cached-answer")])))).2.log
    ∧ ("fresh-answer" : String) ≠ "cached-answer" := by
  refine ⟨rfl, rfl, rfl, ?_, by decide, by decide⟩
  rw [call_llm_sessionTotal]
  have h1 : (⟨"api-key", none, .absent, "claude-haiku-4-5-20251001"⟩ : Env).shouldLog
      = true := by decide
  rw [h1, if_pos rfl]
  show (0 : ℚ) + dictGetD (calculateTokenCost .absent "claude-haiku-4-5-20251001"
    100 50 0) "total_cost" 0 = 7 / 25000
  rw [calculateTokenCost, dictGetD, dictGet_calcCore_total_cost, Option.getD_some]
  have hr : resolveModelPricing (loadTokenPricing .absent).1
      "claude-haiku-4-5-20251001" =
      [("input", (0.80 : ℚ)), ("output", 4.00), ("thinking", 0.30)] := rfl
  rw [hr]
  have hi : dictGetD [("input", (0.80 : ℚ)), ("output", 4.00), ("thinking", 0.30)]
      "input" 0.80 = 0.80 := rfl
  have ho : dictGetD [("input", (0.80 : ℚ)), ("output", 4.00), ("thinking", 0.30)]
      "output" 4.00 = 4.00 := rfl
  have ht : dictGetD [("input", (0.80 : ℚ)), ("output", 4.00), ("thinking", 0.30)]
      "thinking" 0.30 = 0.30 := rfl
  rw [hi, ho, ht]
  norm_num

end ClaimC1

section ClaimC4

/-- C4 (amended): the session accumulator starts at zero; on every call it
changes by exactly `callCostDelta` — the total cost of the remote
response the call obtained — when cost logging is enabled, and by nothing
when cost logging is disabled (so in particular it is never reset). -/
theorem session_total_characterization (env : Env) (remote : RemoteOutcome)
    (cacheWriteOk : Bool) (prompt : String) (use_cache : Bool)
    (st : LLMState) (cf : Option CacheContent) :
    (initialState cf).sessionTotalCost = 0
    ∧ (call_llm env remote cacheWriteOk prompt use_cache st).2.sessionTotalCost =
        st.sessionTotalCost +
          (if env.shouldLog then callCostDelta env remote else 0) :=
  ⟨rfl, call_llm_sessionTotal env remote cacheWriteOk prompt use_cache st⟩

/-- C4 counterexample: with `LOG_TOKEN_COSTS=false` a successful
non-cache-hit call (one fresh remote invocation, total cost 7/25000 USD,
which is nonzero) leaves the session accumulator unchanged at 0 — the
claim's "incremented ... regardless of other configuration" fails. -/
theorem session_total_unchanged_when_logging_disabled :
    shouldLogOf (some "false") = false
    ∧ (call_llm ⟨"api-key", some "false", .absent, "claude-haiku-4-5-20251001"⟩
        (.success [⟨"text", "hi"⟩] ⟨100, 50, none⟩) true "p" false
        (initialState none)).1 = .ok "hi"
    ∧ (call_llm ⟨"api-key", some "false", .absent, "claude-haiku-4-5-20251001"⟩
        (.success [⟨"text", "hi"⟩] ⟨100, 50, none⟩) true "p" false
        (initialState none)).2.remoteCalls = 1
    ∧ (call_llm ⟨"api-key", some "false", .absent, "claude-haiku-4-5-20251001"⟩
        (.success [⟨"text", "hi"⟩] ⟨100, 50, none⟩) true "p" false
        (initialState none)).2.sessionTotalCost = 0
    ∧ dictGet (calculateTokenCost .absent "claude-haiku-4-5-20251001" 100 50 0)
        "total_cost" = some (7 / 25000)
    ∧ (7 / 25000 : ℚ) ≠ 0 := by
  refine ⟨by decide, rfl, rfl, rfl, ?_, by norm_num⟩
  rw [calculateTokenCost, dictGet_calcCore_total_cost]
  have hr : resolveModelPricing (loadTokenPricing .absent).1
      "claude-haiku-4-5-20251001" =
      [("input", (0.80 : ℚ)), ("output", 4.00), ("thinking", 0.30)] := rfl
  rw [hr]
  have hi : dictGetD [("input", (0.80 : ℚ)), ("output", 4.00), ("thinking", 0.30)]
      "input" 0.80 = 0.80 := rfl
  have ho : dictGetD [("input", (0.80 : ℚ)), ("output", 4.00), ("thinking", 0.30)]
      "output" 4.00 = 4.00 := rfl
  have ht : dictGetD [("input", (0.80 : ℚ)), ("output", 4.00), ("thinking", 0.30)]
      "thinking" 0.30 = 0.30 := rfl
  rw [hi, ho, ht]
  norm_num

end ClaimC4

end CallLLM
